import Mathlib

/-!
Verification of the `Robot` example programs
(`the projects/(-1) source file` and `the projects/4 source file`).

The two files each define a class `Robot` with public fields
`double x, y, angle`, a constructor storing its three arguments
(each defaulting to 0), and two mutating operations:

  void move(double distance) {
      x += distance * cos(angle);
      y += distance * sin(angle);
      std::cout << "Robot moved to (" << x << ", " << y << ")" << std::endl;
  }
  void rotate(double angle_change) {
      angle += angle_change;
      std::cout << "Robot rotated to " << angle << " radians" << std::endl;
  }

We embed the `double` arithmetic as exact real arithmetic (`ℝ` with
`Real.cos` / `Real.sin`); equalities stated below therefore hold exactly,
which is stronger than the floating-point tolerances the specification
allows.  Console output is modelled abstractly, one constructor per kind
of line the programs emit, carrying the numeric values printed.

A second model (`EV`, `EPose`) extends the reals with the IEEE-754
special values NaN and ±Infinity, with the IEEE propagation rules for
`+`, `*`, `cos`, `sin` on those values, to state the claims about
finiteness preservation and silent NaN/Infinity propagation.
-/

/-- The pose stored in class `Robot`: public fields `double x, y, angle`. -/
structure Pose where
  x : ℝ
  y : ℝ
  angle : ℝ

/-- One line of console output, modelled abstractly: `moved x y` stands for
`"Robot moved to (x, y)"`, `rotated a` for `"Robot rotated to a radians"`,
and `text s` for a literal banner line `s`. -/
inductive ConsoleLine where
  | moved (x y : ℝ)
  | rotated (angle : ℝ)
  | text (s : String)

namespace Robot

/-- The constructor `Robot(double x = 0, double y = 0, double angle = 0)`:
stores its three arguments as the pose fields. -/
def new (x y angle : ℝ) : Pose := ⟨x, y, angle⟩

/-- `Robot::move` from `the projects/(-1) source file` (lines 11–15):
`x += distance * cos(angle); y += distance * sin(angle);` then prints the
new position.  Returns the updated pose together with the printed line. -/
noncomputable def move (p : Pose) (distance : ℝ) : Pose × ConsoleLine :=
  let x := p.x + distance * Real.cos p.angle
  let y := p.y + distance * Real.sin p.angle
  (⟨x, y, p.angle⟩, ConsoleLine.moved x y)

/-- `Robot::rotate` from `the projects/(-1) source file` (lines 17–20):
`angle += angle_change;` then prints the new angle. -/
def rotate (p : Pose) (angle_change : ℝ) : Pose × ConsoleLine :=
  let a := p.angle + angle_change
  (⟨p.x, p.y, a⟩, ConsoleLine.rotated a)

/-- `rotate` iterated `n` times with the same argument (used to state that
the stored angle accumulates without any normalization). -/
noncomputable def rotateIter (p : Pose) (c : ℝ) : ℕ → Pose
  | 0 => p
  | n + 1 => (rotate (rotateIter p c n) c).1

end Robot

/-- A call made by a `main` driver on its robot. -/
inductive Op where
  | move (distance : ℝ)
  | rotate (angle_change : ℝ)

/-- Dispatch one call on the pose. -/
noncomputable def Robot.step (p : Pose) : Op → Pose × ConsoleLine
  | Op.move d => Robot.move p d
  | Op.rotate a => Robot.rotate p a

/-- Run a sequence of calls, collecting the printed lines in order. -/
noncomputable def Robot.run (p : Pose) : List Op → Pose × List ConsoleLine
  | [] => (p, [])
  | op :: ops =>
    let pl := Robot.step p op
    let rest := Robot.run pl.1 ops
    (rest.1, pl.2 :: rest.2)

/-- The shape shared by both `main` functions: print a banner, construct one
robot, invoke a fixed list of calls on it, return an exit code. -/
structure MainProgram where
  banner : String
  init : Pose
  ops : List Op
  exitCode : ℤ

/-- The console output of a `main`: the banner line first, then one line per
operation invoked. -/
noncomputable def MainProgram.output (m : MainProgram) : List ConsoleLine :=
  ConsoleLine.text m.banner :: (Robot.run m.init m.ops).2

/-- `main` of `the projects/(-1) source file` (lines 23–29): prints
`"Robot C++ Example"`, constructs `Robot robot(0, 0, 0)`, calls
`robot.move(1.0)` then `robot.rotate(0.5)`, and returns 0. -/
noncomputable def mainMinus1 : MainProgram :=
  ⟨"Robot C++ Example", Robot.new 0 0 0, [Op.move 1, Op.rotate 0.5], 0⟩

/-- `main` of `the projects/4 source file` (lines 23–27): prints
`"My name is shayan"`, constructs `Robot robot(0, 0, 0)`, invokes no
operation, and returns 0. -/
noncomputable def main4 : MainProgram :=
  ⟨"My name is shayan", Robot.new 0 0 0, [], 0⟩

namespace Robot4

/-! The `Robot` class of `the projects/4 source file`.  It is textually the
class of the other variant except that it writes `std::cos` / `std::sin`
(with `#include <cmath>`) where the other writes `cos` / `sin`; both name
the same double-precision cosine and sine, embedded here as `Real.cos` and
`Real.sin`. -/

/-- The constructor `Robot(double x = 0, double y = 0, double angle = 0)`
of the projects/4 variant. -/
def new (x y angle : ℝ) : Pose := ⟨x, y, angle⟩

/-- `Robot::move` from `the projects/4 source file` (lines 11–15):
`x += distance * std::cos(angle); y += distance * std::sin(angle);` then
prints the new position. -/
noncomputable def move (p : Pose) (distance : ℝ) : Pose × ConsoleLine :=
  let x := p.x + distance * Real.cos p.angle
  let y := p.y + distance * Real.sin p.angle
  (⟨x, y, p.angle⟩, ConsoleLine.moved x y)

/-- `Robot::rotate` from `the projects/4 source file` (lines 17–20). -/
def rotate (p : Pose) (angle_change : ℝ) : Pose × ConsoleLine :=
  let a := p.angle + angle_change
  (⟨p.x, p.y, a⟩, ConsoleLine.rotated a)

/-- Dispatch one call on the pose, projects/4 variant. -/
noncomputable def step (p : Pose) : Op → Pose × ConsoleLine
  | Op.move d => move p d
  | Op.rotate a => rotate p a

/-- Run a sequence of calls, projects/4 variant. -/
noncomputable def run (p : Pose) : List Op → Pose × List ConsoleLine
  | [] => (p, [])
  | op :: ops =>
    let pl := step p op
    let rest := run pl.1 ops
    (rest.1, pl.2 :: rest.2)

end Robot4

/-! ## Extended values: IEEE-754 special cases

To state the claims about finiteness and about silent NaN/Infinity
propagation, `double` is modelled as an exact real number extended with
the special values `+inf`, `-inf` and `nan`, with the IEEE-754
propagation rules for addition, multiplication, cosine and sine on the
special values (finite arithmetic is exact: rounding and overflow of the
finite range are below this model's level of abstraction, as the
specification's tolerance language permits). -/

/-- A `double`: a finite real value or one of the IEEE special values. -/
inductive EV where
  | fin (v : ℝ)
  | pinf
  | ninf
  | nan

namespace EV

/-- Is the value finite (neither an infinity nor NaN)? -/
def isFinite : EV → Bool
  | fin _ => true
  | _ => false

/-- IEEE addition on extended values: NaN propagates, opposite infinities
give NaN, an infinity absorbs any finite addend. -/
noncomputable def add : EV → EV → EV
  | nan, _ => nan
  | _, nan => nan
  | pinf, ninf => nan
  | ninf, pinf => nan
  | pinf, _ => pinf
  | _, pinf => pinf
  | ninf, _ => ninf
  | _, ninf => ninf
  | fin a, fin b => fin (a + b)

/-- IEEE multiplication on extended values: NaN propagates, infinity times
zero is NaN, infinity times a nonzero finite value is a signed infinity. -/
noncomputable def mul : EV → EV → EV
  | nan, _ => nan
  | _, nan => nan
  | pinf, pinf => pinf
  | pinf, ninf => ninf
  | ninf, pinf => ninf
  | ninf, ninf => pinf
  | pinf, fin b => if 0 < b then pinf else if b < 0 then ninf else nan
  | fin a, pinf => if 0 < a then pinf else if a < 0 then ninf else nan
  | ninf, fin b => if 0 < b then ninf else if b < 0 then pinf else nan
  | fin a, ninf => if 0 < a then ninf else if a < 0 then pinf else nan
  | fin a, fin b => fin (a * b)

/-- `cos` on extended values: NaN on any non-finite argument. -/
noncomputable def cos : EV → EV
  | fin v => fin (Real.cos v)
  | _ => nan

/-- `sin` on extended values: NaN on any non-finite argument. -/
noncomputable def sin : EV → EV
  | fin v => fin (Real.sin v)
  | _ => nan

end EV

/-- The robot pose with `double` fields modelled as extended values. -/
structure EPose where
  x : EV
  y : EV
  angle : EV

/-- `Robot::move` over extended values:
`x += distance * cos(angle); y += distance * sin(angle);`. -/
noncomputable def EMove (p : EPose) (distance : EV) : EPose :=
  ⟨p.x.add (distance.mul p.angle.cos),
   p.y.add (distance.mul p.angle.sin),
   p.angle⟩

/-- `Robot::rotate` over extended values: `angle += angle_change;`. -/
noncomputable def ERotate (p : EPose) (angle_change : EV) : EPose :=
  ⟨p.x, p.y, p.angle.add angle_change⟩

/-- The constructor over extended values: stores its arguments unchanged. -/
def ENew (x y angle : EV) : EPose := ⟨x, y, angle⟩

/-! ## Helper lemmas about extended values -/

theorem EV.isFinite_eq_true_iff (z : EV) : z.isFinite = true ↔ ∃ v, z = EV.fin v := by
  cases z <;> simp [EV.isFinite]

theorem EV.mul_pinf_fin (b : ℝ) : (EV.mul EV.pinf (EV.fin b)).isFinite = false := by
  show (if 0 < b then EV.pinf else if b < 0 then EV.ninf else EV.nan).isFinite = false
  split_ifs <;> rfl

theorem EV.mul_ninf_fin (b : ℝ) : (EV.mul EV.ninf (EV.fin b)).isFinite = false := by
  show (if 0 < b then EV.ninf else if b < 0 then EV.pinf else EV.nan).isFinite = false
  split_ifs <;> rfl

theorem EV.add_fin_notFin (a : ℝ) (z : EV) (h : z.isFinite = false) :
    (EV.add (EV.fin a) z).isFinite = false := by
  cases z with
  | fin v => simp [EV.isFinite] at h
  | pinf => rfl
  | ninf => rfl
  | nan => rfl

/-! ## Claim theorems -/

/-- C1: for every pose `(x_old, y_old, angle)` and every distance, `move(distance)`
sets `x_new = x_old + distance*cos(angle)` and `y_new = y_old + distance*sin(angle)`,
and leaves `angle` unchanged.  (Exact equality in the real-arithmetic model, which
is stronger than the specification's floating-point tolerance.) -/
theorem move_updates_position_and_preserves_angle (p : Pose) (d : ℝ) :
    (Robot.move p d).1.x = p.x + d * Real.cos p.angle ∧
    (Robot.move p d).1.y = p.y + d * Real.sin p.angle ∧
    (Robot.move p d).1.angle = p.angle :=
  ⟨rfl, rfl, rfl⟩

/-- C2: `rotate(angle_change)` sets `angle_new = angle_old + angle_change` and
leaves `(x, y)` unchanged; no normalization or wrap-around is applied, so after
`n` repeated calls with the same argument `c` the stored angle is exactly
`angle_old + n*c`, growing without bound. -/
theorem rotate_adds_angle_without_normalization (p : Pose) (c : ℝ) :
    (Robot.rotate p c).1.angle = p.angle + c ∧
    (Robot.rotate p c).1.x = p.x ∧
    (Robot.rotate p c).1.y = p.y ∧
    ∀ n : ℕ, (Robot.rotateIter p c n).angle = p.angle + n * c := by
  refine ⟨rfl, rfl, rfl, ?_⟩
  intro n
  induction n with
  | zero => simp [Robot.rotateIter]
  | succ k ih =>
    simp only [Robot.rotateIter, Robot.rotate, ih]
    push_cast
    ring

/-- C6: `move(0)` leaves the position `(x, y)` unchanged (exactly, in the
real-arithmetic model). -/
theorem move_zero_leaves_position (p : Pose) :
    (Robot.move p 0).1.x = p.x ∧ (Robot.move p 0).1.y = p.y := by
  constructor <;> simp [Robot.move]

/-- C7: `move(d)` then `rotate(0)` then `move(-d)` returns the position `(x, y)`
to its original value (exactly, in the real-arithmetic model), for any `d`. -/
theorem move_rotate_zero_move_neg_restores_position (p : Pose) (d : ℝ) :
    (Robot.move ((Robot.rotate ((Robot.move p d).1) 0).1) (-d)).1.x = p.x ∧
    (Robot.move ((Robot.rotate ((Robot.move p d).1) 0).1) (-d)).1.y = p.y := by
  constructor <;>
    · simp only [Robot.move, Robot.rotate, add_zero]
      ring

/-- C8: starting from `Robot(0, 0, 0)`, `move(1.0)` yields `x = 1`, `y = 0` and
prints the moved-to line reporting `(1, 0)`; the subsequent `rotate(0.5)` yields
`angle = 0.5` and prints the rotated-to line reporting `0.5` radians. -/
theorem scenario_origin_move_one_rotate_half :
    (Robot.move (Robot.new 0 0 0) 1).1.x = 1 ∧
    (Robot.move (Robot.new 0 0 0) 1).1.y = 0 ∧
    (Robot.move (Robot.new 0 0 0) 1).2 = ConsoleLine.moved 1 0 ∧
    (Robot.rotate (Robot.move (Robot.new 0 0 0) 1).1 0.5).1.angle = 0.5 ∧
    (Robot.rotate (Robot.move (Robot.new 0 0 0) 1).1 0.5).2 = ConsoleLine.rotated 0.5 := by
  refine ⟨?_, ?_, ?_, ?_, ?_⟩ <;>
    simp [Robot.move, Robot.rotate, Robot.new]

/-- C4: each `main` prints its fixed banner line first, constructs exactly one
robot with pose `(0, 0, 0)`, invokes a fixed number of `move`/`rotate` calls
(two for the projects/(-1) variant, zero for the projects/4 variant), and
returns exit code 0. -/
theorem main_programs_shape :
    mainMinus1.banner = "Robot C++ Example" ∧
    mainMinus1.init = Robot.new 0 0 0 ∧
    mainMinus1.ops.length = 2 ∧
    mainMinus1.exitCode = 0 ∧
    mainMinus1.output =
      [ConsoleLine.text "Robot C++ Example", ConsoleLine.moved 1 0,
       ConsoleLine.rotated 0.5] ∧
    main4.banner = "My name is shayan" ∧
    main4.init = Robot.new 0 0 0 ∧
    main4.ops.length = 0 ∧
    main4.exitCode = 0 ∧
    main4.output = [ConsoleLine.text "My name is shayan"] := by
  refine ⟨rfl, rfl, rfl, rfl, ?_, rfl, rfl, rfl, rfl, rfl⟩
  simp [MainProgram.output, mainMinus1, Robot.run, Robot.step, Robot.move,
    Robot.rotate, Robot.new]

/-- C9: the `Robot` classes of the two program variants are behaviorally
equivalent: from any pose, `move`, `rotate`, the constructor, and any sequence
of calls produce identical poses and identical output lines in both variants. -/
theorem robot_variants_equivalent :
    (∀ p d, Robot.move p d = Robot4.move p d) ∧
    (∀ p a, Robot.rotate p a = Robot4.rotate p a) ∧
    (∀ x y a, Robot.new x y a = Robot4.new x y a) ∧
    (∀ p ops, Robot.run p ops = Robot4.run p ops) := by
  refine ⟨fun p d => rfl, fun p a => rfl, fun x y a => rfl, fun p ops => ?_⟩
  induction ops generalizing p with
  | nil => rfl
  | cons op rest ih =>
    have hstep : Robot.step p op = Robot4.step p op := by cases op <;> rfl
    simp only [Robot.run, Robot4.run, hstep, ih]

/-- C10: `move` and `rotate` are deterministic: from identical poses with
identical arguments they produce identical resulting poses and identical
output lines (they depend on nothing but the pose and the argument). -/
theorem move_rotate_deterministic (p q : Pose) (d e : ℝ)
    (hpq : p = q) (hde : d = e) :
    Robot.move p d = Robot.move q e ∧ Robot.rotate p d = Robot.rotate q e := by
  subst hpq
  subst hde
  exact ⟨rfl, rfl⟩

/-- Witness for C10 at the concrete pose `(0, 0, 0)` and argument `1`. -/
theorem move_rotate_deterministic_witness :
    Robot.move (Robot.new 0 0 0) 1 = Robot.move (Robot.new 0 0 0) 1 ∧
    Robot.rotate (Robot.new 0 0 0) 1 = Robot.rotate (Robot.new 0 0 0) 1 :=
  move_rotate_deterministic (Robot.new 0 0 0) (Robot.new 0 0 0) 1 1 rfl rfl

/-- C3: construction with finite arguments yields three finite pose fields, and
both `move` and `rotate` with finite arguments preserve finiteness of every
field: neither operation introduces NaN or an infinity (in the exact-arithmetic
model of `double`, where overflow of the finite range does not occur). -/
theorem finiteness_invariant (x y a : ℝ) (p : EPose) (d c : EV)
    (hx : p.x.isFinite = true) (hy : p.y.isFinite = true)
    (ha : p.angle.isFinite = true)
    (hd : d.isFinite = true) (hc : c.isFinite = true) :
    ((ENew (EV.fin x) (EV.fin y) (EV.fin a)).x.isFinite = true ∧
     (ENew (EV.fin x) (EV.fin y) (EV.fin a)).y.isFinite = true ∧
     (ENew (EV.fin x) (EV.fin y) (EV.fin a)).angle.isFinite = true) ∧
    ((EMove p d).x.isFinite = true ∧ (EMove p d).y.isFinite = true ∧
     (EMove p d).angle.isFinite = true) ∧
    ((ERotate p c).x.isFinite = true ∧ (ERotate p c).y.isFinite = true ∧
     (ERotate p c).angle.isFinite = true) := by
  obtain ⟨px, py, pa⟩ := p
  rw [EV.isFinite_eq_true_iff] at hx hy ha hd hc
  obtain ⟨vx, rfl⟩ := hx
  obtain ⟨vy, rfl⟩ := hy
  obtain ⟨va, rfl⟩ := ha
  obtain ⟨vd, rfl⟩ := hd
  obtain ⟨vc, rfl⟩ := hc
  exact ⟨⟨rfl, rfl, rfl⟩, ⟨rfl, rfl, rfl⟩, ⟨rfl, rfl, rfl⟩⟩

/-- Witness for C3 at the concrete finite pose `(0, 0, 0)` with arguments
`1` (move) and `0.5` (rotate). -/
theorem finiteness_invariant_witness :
    (EMove ⟨EV.fin 0, EV.fin 0, EV.fin 0⟩ (EV.fin 1)).x.isFinite = true ∧
    (ERotate ⟨EV.fin 0, EV.fin 0, EV.fin 0⟩ (EV.fin 0.5)).angle.isFinite = true :=
  ⟨(finiteness_invariant 0 0 0 ⟨EV.fin 0, EV.fin 0, EV.fin 0⟩ (EV.fin 1)
      (EV.fin 0.5) rfl rfl rfl rfl rfl).2.1.1,
   (finiteness_invariant 0 0 0 ⟨EV.fin 0, EV.fin 0, EV.fin 0⟩ (EV.fin 1)
      (EV.fin 0.5) rfl rfl rfl rfl rfl).2.2.2.2⟩

/-- C5: from a finite pose, `move` and `rotate` cannot fail: every finite
argument is accepted without validation and yields finite updated fields, while
a non-finite argument (NaN or ±Infinity) is not rejected either — it propagates
silently into the updated pose fields (the new `x` and `y` for `move`, the new
`angle` for `rotate`), leaving the untouched fields unchanged. -/
theorem operations_total_and_nonfinite_propagates (p : EPose) (d c : EV)
    (hx : p.x.isFinite = true) (hy : p.y.isFinite = true)
    (ha : p.angle.isFinite = true) :
    (d.isFinite = true →
      (EMove p d).x.isFinite = true ∧ (EMove p d).y.isFinite = true) ∧
    (c.isFinite = true → (ERotate p c).angle.isFinite = true) ∧
    (d.isFinite = false →
      (EMove p d).x.isFinite = false ∧ (EMove p d).y.isFinite = false ∧
      (EMove p d).angle = p.angle) ∧
    (c.isFinite = false →
      (ERotate p c).angle.isFinite = false ∧
      (ERotate p c).x = p.x ∧ (ERotate p c).y = p.y) := by
  obtain ⟨px, py, pa⟩ := p
  rw [EV.isFinite_eq_true_iff] at hx hy ha
  obtain ⟨vx, rfl⟩ := hx
  obtain ⟨vy, rfl⟩ := hy
  obtain ⟨va, rfl⟩ := ha
  refine ⟨?_, ?_, ?_, ?_⟩
  · intro hd
    rw [EV.isFinite_eq_true_iff] at hd
    obtain ⟨vd, rfl⟩ := hd
    exact ⟨rfl, rfl⟩
  · intro hc
    rw [EV.isFinite_eq_true_iff] at hc
    obtain ⟨vc, rfl⟩ := hc
    exact rfl
  · intro hd
    cases d with
    | fin v => simp [EV.isFinite] at hd
    | pinf =>
      exact ⟨EV.add_fin_notFin vx _ (EV.mul_pinf_fin _),
        EV.add_fin_notFin vy _ (EV.mul_pinf_fin _), rfl⟩
    | ninf =>
      exact ⟨EV.add_fin_notFin vx _ (EV.mul_ninf_fin _),
        EV.add_fin_notFin vy _ (EV.mul_ninf_fin _), rfl⟩
    | nan => exact ⟨rfl, rfl, rfl⟩
  · intro hc
    cases c with
    | fin v => simp [EV.isFinite] at hc
    | pinf => exact ⟨rfl, rfl, rfl⟩
    | ninf => exact ⟨rfl, rfl, rfl⟩
    | nan => exact ⟨rfl, rfl, rfl⟩

/-- Witness for C5 at the concrete finite pose `(0, 0, 0)`: `move(NaN)` makes
`x` non-finite, `rotate(+Infinity)` makes `angle` non-finite, and `move(1)`
keeps `x` finite. -/
theorem operations_total_and_nonfinite_propagates_witness :
    (EMove ⟨EV.fin 0, EV.fin 0, EV.fin 0⟩ EV.nan).x.isFinite = false ∧
    (ERotate ⟨EV.fin 0, EV.fin 0, EV.fin 0⟩ EV.pinf).angle.isFinite = false ∧
    (EMove ⟨EV.fin 0, EV.fin 0, EV.fin 0⟩ (EV.fin 1)).x.isFinite = true :=
  ⟨((operations_total_and_nonfinite_propagates ⟨EV.fin 0, EV.fin 0, EV.fin 0⟩
      EV.nan EV.pinf rfl rfl rfl).2.2.1 rfl).1,
   ((operations_total_and_nonfinite_propagates ⟨EV.fin 0, EV.fin 0, EV.fin 0⟩
      EV.nan EV.pinf rfl rfl rfl).2.2.2 rfl).1,
   ((operations_total_and_nonfinite_propagates ⟨EV.fin 0, EV.fin 0, EV.fin 0⟩
      (EV.fin 1) EV.pinf rfl rfl rfl).1 rfl).1⟩
